import Mathlib

/-!
Shallow embedding of `flow_graphengine.py` from the APS Flow Graph Engine
Bifrost python sample, together with proofs of behavioural properties of
the `FlowGraphEngineServer` client.

Modelling conventions:
* JSON documents are modelled by the inductive `JValue`; Python dictionary
  subscription (which raises `KeyError` on a missing key and `TypeError`
  when the value is not subscriptable) is `JValue.subscript`.
* The network is modelled by a scripted list of pending HTTP responses
  consumed in order; every issued request is appended to a trace, and an
  exhausted script behaves as a network failure.  Local file writes are
  recorded in `WorldState.files`.
* Python exceptions are the error side of an `Except PyErr` result, threaded
  through the explicit state-passing monad `M`.
* `time.sleep` and `print` have no observable effect in this model and are
  omitted; the unbounded `while True` poll loop is given explicit fuel, with
  `PyErr.fuelExhausted` marking "still polling after that many iterations".
* String-typed JSON fields (`access_token`, `url`, `path`, `spaceId`,
  `resourceId`, `id`, `urn`, `status`, ...) are extracted with
  `JValue.subscriptStr`; the remote API delivers these fields as JSON
  strings, which is the case the Python code relies on.
-/

/-- Python exception outcomes reachable in `flow_graphengine.py`. -/
inductive PyErr : Type
  | keyError : String → PyErr
  | indexError : PyErr
  | typeError : PyErr
  | assertionError : PyErr
  | connectionError : PyErr
  | jsonDecodeError : PyErr
  | fuelExhausted : PyErr
deriving DecidableEq, Repr

/-- JSON values as produced by `response.json()`. -/
inductive JValue : Type
  | str : String → JValue
  | num : Int → JValue
  | bool : Bool → JValue
  | null : JValue
  | arr : List JValue → JValue
  | obj : List (String × JValue) → JValue

/-- First binding of a key in a JSON object's field list. -/
def jlookup : List (String × JValue) → String → Option JValue
  | [], _ => none
  | (k, v) :: rest, key => if k = key then some v else jlookup rest key

/-- Python `j[key]` for a string key: `KeyError` when the key is absent,
`TypeError` when `j` is not a dictionary. -/
def JValue.subscript : JValue → String → Except PyErr JValue
  | .obj fields, key =>
      match jlookup fields key with
      | some v => .ok v
      | none => .error (.keyError key)
  | _, _ => .error .typeError

/-- Subscription followed by use of the value as a string. -/
def JValue.subscriptStr (j : JValue) (key : String) : Except PyErr String :=
  match j.subscript key with
  | .ok (.str s) => .ok s
  | .ok _ => .error .typeError
  | .error e => .error e

/-- Subscription followed by iteration over the value as a list. -/
def JValue.subscriptArr (j : JValue) (key : String) : Except PyErr (List JValue) :=
  match j.subscript key with
  | .ok (.arr l) => .ok l
  | .ok _ => .error .typeError
  | .error e => .error e

/-- Python `j[i]` for an integer index on a JSON array. -/
def JValue.index : JValue → Nat → Except PyErr JValue
  | .arr l, i =>
      match l.get? i with
      | some v => .ok v
      | none => .error .indexError
  | _, _ => .error .typeError

/-- Request bodies issued by the client. -/
inductive HttpBody : Type
  | none : HttpBody
  | form : List (String × String) → HttpBody
  | json : JValue → HttpBody
  | bytes : List Nat → HttpBody

structure HttpRequest where
  method : String
  url : String
  headers : List (String × String)
  body : HttpBody

structure HttpResponse where
  status_code : Nat
  headers : List (String × String)
  body : HttpBody

/-- Python `response.json()`: the parsed document, or a decode failure when
the body is not JSON. -/
def HttpResponse.jsonBody : HttpResponse → Except PyErr JValue
  | r => match r.body with
      | .json j => .ok j
      | _ => .error .jsonDecodeError

/-- Python `response.headers[k]` (`KeyError` when absent). -/
def HttpResponse.headerGet (r : HttpResponse) (k : String) : Except PyErr String :=
  match jlookupStr r.headers k with
  | some v => .ok v
  | none => .error (.keyError k)
where
  jlookupStr : List (String × String) → String → Option String
    | [], _ => none
    | (k', v) :: rest, key => if k' = key then some v else jlookupStr rest key

/-- Bytes streamed by `response.iter_content` and concatenated by the
chunked download loop: the raw body. -/
def HttpResponse.rawContent (r : HttpResponse) : List Nat :=
  match r.body with
  | .bytes b => b
  | _ => []

/-- The world visible to the client: scripted pending responses, the trace
of issued requests, and the local files written so far. -/
structure WorldState where
  pending : List HttpResponse
  trace : List HttpRequest
  files : List (String × List Nat)

/-- Explicit state-passing computation with Python-exception failure. -/
def M (α : Type) : Type := WorldState → Except PyErr α × WorldState

def mpure {α : Type} (a : α) : M α := fun st => (.ok a, st)

def mbind {α β : Type} (m : M α) (k : α → M β) : M β := fun st =>
  match m st with
  | (.ok a, st') => k a st'
  | (.error e, st') => (.error e, st')

/-- Lift a pure fallible step (dictionary lookups, header reads). -/
def liftE {α : Type} (e : Except PyErr α) : M α := fun st => (e, st)

/-- Issue one HTTP request: record it in the trace, consume the next
scripted response; an empty script is a network failure. -/
def httpCall (req : HttpRequest) : M HttpResponse := fun st =>
  match st.pending with
  | [] => (.error .connectionError, { st with trace := st.trace ++ [req] })
  | r :: rest => (.ok r, { pending := rest, trace := st.trace ++ [req], files := st.files })

/-- Write a local file (the `open(destination, 'wb')` block). -/
def fsWrite (path : String) (content : List Nat) : M Unit := fun st =>
  (.ok (), { st with files := st.files ++ [(path, content)] })

/-! ## The client, translated method by method from `flow_graphengine.py` -/

structure FlowGraphEngineServer where
  client_id : String
  client_secret : String
  oauth_token : String
  queue_id : String

/-- The credential-exchange request of `_generate_oauth_token`. -/
def tokenRequest (client_id client_secret : String) : HttpRequest :=
  { method := "POST"
    url := "https://developer.api.autodesk.com/authentication/v2/token"
    headers := [("Content-Type", "application/x-www-form-urlencoded")]
    body := .form
      [("scope", "data:read data:create data:write code:all"),
       ("grant_type", "client_credentials"),
       ("client_id", client_id),
       ("client_secret", client_secret)] }

/-- `_generate_oauth_token`: POST the credentials, read
`response.json()['access_token']`. -/
def generate_oauth_token (client_id client_secret : String) : M String :=
  mbind (httpCall (tokenRequest client_id client_secret)) fun response =>
  liftE (mbindE response.jsonBody fun j => j.subscriptStr "access_token")
where
  mbindE {α β : Type} (e : Except PyErr α) (k : α → Except PyErr β) : Except PyErr β :=
    match e with
    | .ok a => k a
    | .error err => .error err

/-- `FlowGraphEngineServer.__init__`: store the credentials, assert both
truthy (Python's falsy string is the empty string), fetch the token, store
the queue id. -/
def FlowGraphEngineServer.init (client_id client_secret queue_id : String) :
    M FlowGraphEngineServer :=
  if client_id = "" then liftE (.error .assertionError)
  else if client_secret = "" then liftE (.error .assertionError)
  else
    mbind (generate_oauth_token client_id client_secret) fun tok =>
    mpure { client_id := client_id, client_secret := client_secret,
            oauth_token := tok, queue_id := queue_id }

/-- Request of `_get_resource_upload_url`. -/
def uploadUrlsRequest (token space_id resource_id : String) : HttpRequest :=
  { method := "GET"
    url := "https://developer.api.autodesk.com/flow/storage/v1/spaces/"
           ++ space_id ++ "/resources/" ++ resource_id ++ "/upload-urls"
    headers := [("Authorization", "Bearer " ++ token)]
    body := .none }

def _get_resource_upload_url (s : FlowGraphEngineServer)
    (space_id resource_id : String) : M JValue :=
  mbind (httpCall (uploadUrlsRequest s.oauth_token space_id resource_id)) fun response =>
  liftE response.jsonBody

/-- Request of `_upload_to_signed_url` (no bearer token: the URL is
pre-signed). -/
def signedPutRequest (signedUrl : String) (data : List Nat) : HttpRequest :=
  { method := "PUT", url := signedUrl, headers := [], body := .bytes data }

/-- `_upload_to_signed_url`: PUT the file bytes, read back the `etag`
response header.  The local file's bytes are passed in as `file_bytes`. -/
def _upload_to_signed_url (signedUrl : String) (file_bytes : List Nat) : M String :=
  mbind (httpCall (signedPutRequest signedUrl file_bytes)) fun response =>
  liftE (response.headerGet "etag")

/-- The completion body of `_complete_upload`:
`{resourceId, uploadId, parts: [{partId: 1, etag}]}`. -/
def completeUploadBody (resource_id upload_id etag : String) : JValue :=
  .obj [("resourceId", .str resource_id),
        ("uploadId", .str upload_id),
        ("parts", .arr [.obj [("partId", .num 1), ("etag", .str etag)]])]

/-- Request of `_complete_upload`. -/
def completeUploadRequest (token space_id resource_id upload_id etag : String) :
    HttpRequest :=
  { method := "POST"
    url := "https://developer.api.autodesk.com/flow/storage/v1/spaces/"
           ++ space_id ++ "/uploads:complete"
    headers := [("Authorization", "Bearer " ++ token)]
    body := .json (completeUploadBody resource_id upload_id etag) }

def _complete_upload (s : FlowGraphEngineServer)
    (space_id resource_id upload_id etag : String) : M String :=
  mbind (httpCall (completeUploadRequest s.oauth_token space_id resource_id upload_id etag))
    fun response =>
  mbind (liftE response.jsonBody) fun j =>
  liftE (j.subscriptStr "urn")

/-- `upload_file`: the three-step protocol.  `file_bytes` stands for the
contents read from `path_to_file`. -/
def upload_file (s : FlowGraphEngineServer) (file_bytes : List Nat)
    (space_id resource_id : String) : M String :=
  mbind (_get_resource_upload_url s space_id resource_id) fun getResp =>
  mbind (liftE (mseq (getResp.subscript "urls") fun urls =>
                mseq (urls.index 0) fun u0 => u0.subscriptStr "url")) fun signedUrl =>
  mbind (_upload_to_signed_url signedUrl file_bytes) fun inputFileEtag =>
  mbind (liftE (mseq (getResp.subscript "upload") fun up => up.subscriptStr "resourceId"))
    fun uploadResourceId =>
  mbind (liftE (mseq (getResp.subscript "upload") fun up => up.subscriptStr "id"))
    fun uploadId =>
  _complete_upload s space_id uploadResourceId uploadId inputFileEtag
where
  mseq {α β : Type} (e : Except PyErr α) (k : α → Except PyErr β) : Except PyErr β :=
    match e with
    | .ok a => k a
    | .error err => .error err

/-- Request of `list_jobs`. -/
def listJobsRequest (token queue_id : String) : HttpRequest :=
  { method := "GET"
    url := "https://developer.api.autodesk.com/flow/compute/v1/queues/"
           ++ queue_id ++ "/jobs"
    headers := [("Authorization", "Bearer " ++ token)]
    body := .none }

def list_jobs (s : FlowGraphEngineServer) : M (List JValue) :=
  mbind (httpCall (listJobsRequest s.oauth_token s.queue_id)) fun response =>
  mbind (liftE response.jsonBody) fun j =>
  liftE (j.subscriptArr "results")

/-- Request of `submit_job`. -/
def submitJobRequest (token queue_id : String) (job_json : JValue) : HttpRequest :=
  { method := "POST"
    url := "https://developer.api.autodesk.com/flow/compute/v1/queues/"
           ++ queue_id ++ "/jobs"
    headers := [("Authorization", "Bearer " ++ token)]
    body := .json job_json }

def submit_job (s : FlowGraphEngineServer) (job_json : JValue) : M String :=
  mbind (httpCall (submitJobRequest s.oauth_token s.queue_id job_json)) fun response =>
  mbind (liftE response.jsonBody) fun j =>
  liftE (j.subscriptStr "id")

/-- Request of `get_job_data`. -/
def jobDataRequest (token queue_id job_id : String) : HttpRequest :=
  { method := "GET"
    url := "https://developer.api.autodesk.com/flow/compute/v1/queues/"
           ++ queue_id ++ "/jobs/" ++ job_id
    headers := [("Authorization", "Bearer " ++ token)]
    body := .none }

def get_job_data (s : FlowGraphEngineServer) (job_id : String) : M JValue :=
  mbind (httpCall (jobDataRequest s.oauth_token s.queue_id job_id)) fun response =>
  liftE response.jsonBody

/-- The terminal job statuses of the `wait_for_job_to_complete` loop. -/
def terminalStatuses : List String := ["SUCCEEDED", "FAILED", "CANCELED"]

/-- `wait_for_job_to_complete`: poll `get_job_data` until a terminal status,
with explicit fuel for the unbounded `while True` loop; sleeping between
polls is unobservable here. -/
def wait_for_job_to_complete (s : FlowGraphEngineServer) (job_id : String) :
    Nat → M JValue
  | 0 => liftE (.error .fuelExhausted)
  | fuel + 1 =>
      mbind (get_job_data s job_id) fun job =>
      mbind (liftE (job.subscriptStr "status")) fun status =>
      if status ∈ terminalStatuses then mpure job
      else wait_for_job_to_complete s job_id fuel

/-- Request of `_get_log_data`. -/
def logDataRequest (token queue_id job_id : String) : HttpRequest :=
  { method := "GET"
    url := "https://developer.api.autodesk.com/flow/compute/v1/queues/"
           ++ queue_id ++ "/jobs/" ++ job_id ++ "/logs"
    headers := [("Authorization", "Bearer " ++ token)]
    body := .none }

def _get_log_data (s : FlowGraphEngineServer) (job_id : String) : M JValue :=
  mbind (httpCall (logDataRequest s.oauth_token s.queue_id job_id)) fun response =>
  liftE response.jsonBody

/-- Request of `_get_output_data`. -/
def outputDataRequest (token queue_id job_id : String) : HttpRequest :=
  { method := "GET"
    url := "https://developer.api.autodesk.com/flow/compute/v1/queues/"
           ++ queue_id ++ "/jobs/" ++ job_id ++ "/outputs"
    headers := [("Authorization", "Bearer " ++ token)]
    body := .none }

def _get_output_data (s : FlowGraphEngineServer) (job_id : String) : M JValue :=
  mbind (httpCall (outputDataRequest s.oauth_token s.queue_id job_id)) fun response =>
  liftE response.jsonBody

/-- Request of `_get_download_url_for_resource`. -/
def downloadUrlRequest (token space_id resourceId : String) : HttpRequest :=
  { method := "GET"
    url := "https://developer.api.autodesk.com/flow/storage/v1/spaces/"
           ++ space_id ++ "/resources/" ++ resourceId ++ "/download-url"
    headers := [("Authorization", "Bearer " ++ token)]
    body := .none }

def _get_download_url_for_resource (s : FlowGraphEngineServer)
    (space_id resourceId : String) : M JValue :=
  mbind (httpCall (downloadUrlRequest s.oauth_token space_id resourceId)) fun response =>
  liftE response.jsonBody

/-- Request of `_download_file_from_signed_url` (pre-signed, no token). -/
def signedGetRequest (signedUrl : String) : HttpRequest :=
  { method := "GET", url := signedUrl, headers := [], body := .none }

/-- `_download_file_from_signed_url`: GET the signed URL; only a 200
response writes the destination file (the chunked writes concatenate to the
raw body); any other status falls through with no effect and no error. -/
def _download_file_from_signed_url (signedUrl destination : String) : M Unit :=
  mbind (httpCall (signedGetRequest signedUrl)) fun response =>
  if response.status_code = 200 then fsWrite destination response.rawContent
  else mpure ()

def download_file (s : FlowGraphEngineServer)
    (space_id resource_id destination_path : String) : M Unit :=
  mbind (_get_download_url_for_resource s space_id resource_id) fun signedUrl =>
  mbind (liftE (signedUrl.subscriptStr "url")) fun u =>
  _download_file_from_signed_url u destination_path

/-- `os.path.basename`: the part after the last slash (POSIX separator). -/
def basename (p : String) : String :=
  String.mk ((p.data.reverse.takeWhile (fun c => c ≠ '/')).reverse)

/-- The `for log in logs['results']` loop of `download_job_logs`. -/
def download_logs_loop (s : FlowGraphEngineServer) (logdir : String) :
    List JValue → M (List String)
  | [] => mpure []
  | log :: rest =>
      mbind (liftE (log.subscriptStr "path")) fun p =>
      mbind (liftE (log.subscriptStr "spaceId")) fun spaceId =>
      mbind (liftE (log.subscriptStr "resourceId")) fun resourceId =>
      mbind (download_file s spaceId resourceId (logdir ++ "/joblog_" ++ basename p)) fun _ =>
      mbind (download_logs_loop s logdir rest) fun restPaths =>
      mpure ((logdir ++ "/joblog_" ++ basename p) :: restPaths)

def download_job_logs (s : FlowGraphEngineServer) (job_id logdir : String) :
    M (List String) :=
  mbind (_get_log_data s job_id) fun logs =>
  mbind (liftE (logs.subscriptArr "results")) fun results =>
  download_logs_loop s logdir results

/-- The `for output in outputs['results']` loop of `download_job_outputs`. -/
def download_outputs_loop (s : FlowGraphEngineServer) (outdir : String) :
    List JValue → M (List String)
  | [] => mpure []
  | output :: rest =>
      mbind (liftE (output.subscriptStr "path")) fun p =>
      mbind (liftE (output.subscriptStr "spaceId")) fun spaceId =>
      mbind (liftE (output.subscriptStr "resourceId")) fun resourceId =>
      mbind (download_file s spaceId resourceId (outdir ++ "/" ++ basename p)) fun _ =>
      mbind (download_outputs_loop s outdir rest) fun restPaths =>
      mpure ((outdir ++ "/" ++ basename p) :: restPaths)

def download_job_outputs (s : FlowGraphEngineServer) (job_id outdir : String) :
    M (List String) :=
  mbind (_get_output_data s job_id) fun outputs =>
  mbind (liftE (outputs.subscriptArr "results")) fun results =>
  download_outputs_loop s outdir results

/-! ## Shared test fixtures and response builders -/

/-- A JSON response with status 200 (the service's listing/metadata calls). -/
def jsonResp (j : JValue) : HttpResponse :=
  { status_code := 200, headers := [], body := .json j }

/-- A raw byte response with a given status (signed-URL downloads). -/
def byteResp (status : Nat) (content : List Nat) : HttpResponse :=
  { status_code := status, headers := [], body := .bytes content }

/-- A concrete client session used in witnesses and counterexamples. -/
def testServer : FlowGraphEngineServer :=
  { client_id := "a", client_secret := "b", oauth_token := "tok", queue_id := "@default" }

/-- A concrete empty world used in witnesses and counterexamples. -/
def st0 : WorldState := { pending := [], trace := [], files := [] }

/-! ## C7: empty record lists -/

/-- C7: when the logs (resp. outputs) listing call answers with an empty
`results` array, `download_job_logs` (resp. `download_job_outputs`) returns
an empty path list with no error, consuming only the listing response and
writing no file. -/
theorem empty_results_yield_empty_paths (s : FlowGraphEngineServer)
    (job_id dir : String) (more : List HttpResponse) (tr : List HttpRequest)
    (fs : List (String × List Nat)) :
    download_job_logs s job_id dir
        { pending := jsonResp (.obj [("results", .arr [])]) :: more, trace := tr, files := fs }
      = (.ok [], { pending := more,
                   trace := tr ++ [logDataRequest s.oauth_token s.queue_id job_id],
                   files := fs })
    ∧ download_job_outputs s job_id dir
        { pending := jsonResp (.obj [("results", .arr [])]) :: more, trace := tr, files := fs }
      = (.ok [], { pending := more,
                   trace := tr ++ [outputDataRequest s.oauth_token s.queue_id job_id],
                   files := fs }) :=
  ⟨rfl, rfl⟩

/-! ## C2: non-success download status -/

/-- C2 counterexample: with a 404 answer from the signed download URL,
`download_file` raises nothing — it returns successfully and writes no
file, contradicting the claim that a non-success status raises a
`DownloadError`. -/
theorem download_file_404_raises_nothing :
    download_file testServer "space1" "res1" "out/f.bin"
      { pending := [jsonResp (.obj [("url", .str "https://signed.example/f")]),
                    byteResp 404 [1, 2, 3]],
        trace := [], files := [] }
    = (.ok (), { pending := [],
                 trace := [downloadUrlRequest "tok" "space1" "res1",
                           signedGetRequest "https://signed.example/f"],
                 files := [] }) := rfl

/-- C2 amended: on any non-200 status from the signed URL, `download_file`
silently returns with no error raised and no file written (only a 200
status writes the destination file). -/
theorem download_file_non200_is_silent (s : FlowGraphEngineServer)
    (sp rid dest u : String) (status : Nat) (hdrs : List (String × String))
    (bd : HttpBody) (more : List HttpResponse) (tr : List HttpRequest)
    (fs : List (String × List Nat)) (h : status ≠ 200) :
    download_file s sp rid dest
      { pending := jsonResp (.obj [("url", .str u)]) :: ⟨status, hdrs, bd⟩ :: more,
        trace := tr, files := fs }
    = (.ok (), { pending := more,
                 trace := tr ++ [downloadUrlRequest s.oauth_token sp rid, signedGetRequest u],
                 files := fs }) := by
  have hstep : download_file s sp rid dest
      { pending := jsonResp (.obj [("url", .str u)]) :: ⟨status, hdrs, bd⟩ :: more,
        trace := tr, files := fs }
      = (if status = 200 then
           fsWrite dest (HttpResponse.rawContent ⟨status, hdrs, bd⟩)
         else mpure ())
        { pending := more,
          trace := (tr ++ [downloadUrlRequest s.oauth_token sp rid]) ++ [signedGetRequest u],
          files := fs } := rfl
  rw [hstep, if_neg h]
  simp [mpure]

/-- C2 amended witness at a concrete 404 run. -/
theorem download_file_non200_is_silent_witness :
    download_file testServer "s1" "r1" "d/f"
      { pending := [jsonResp (.obj [("url", .str "u1")]), byteResp 404 [9]],
        trace := [], files := [] }
    = (.ok (), { pending := [],
                 trace := [downloadUrlRequest "tok" "s1" "r1", signedGetRequest "u1"],
                 files := [] }) :=
  download_file_non200_is_silent testServer "s1" "r1" "d/f" "u1" 404 [] (.bytes [9])
    [] [] [] (by decide)

/-! ## C3: failed credential exchange -/

/-- C3: a 401/403 error answer from the authorization endpoint (an error
document with no `access_token` field) makes construction fail — the
stored-token read raises, `__init__` propagates the exception, and no
client value (hence no token) is produced. -/
theorem init_auth_error_fails_construction (cid cs qid : String) (status : Nat)
    (hdrs : List (String × String)) (body : JValue) (more : List HttpResponse)
    (tr : List HttpRequest) (fs : List (String × List Nat))
    (h1 : cid ≠ "") (h2 : cs ≠ "") (_hstatus : status = 401 ∨ status = 403)
    (hbody : body.subscript "access_token" = .error (.keyError "access_token")) :
    FlowGraphEngineServer.init cid cs qid
      { pending := ⟨status, hdrs, .json body⟩ :: more, trace := tr, files := fs }
    = (.error (.keyError "access_token"),
       { pending := more, trace := tr ++ [tokenRequest cid cs], files := fs }) := by
  simp only [FlowGraphEngineServer.init, if_neg h1, if_neg h2, generate_oauth_token,
    mbind, httpCall, liftE, HttpResponse.jsonBody, generate_oauth_token.mbindE,
    JValue.subscriptStr, hbody]

/-- Error document of a rejected credential exchange. -/
def authErrBody : JValue :=
  .obj [("developerMessage", .str "The client_id specified does not have access")]

/-- C3 witness at a concrete 401 exchange. -/
theorem init_auth_error_fails_construction_witness :
    FlowGraphEngineServer.init "a" "b" "@default"
      { pending := [⟨401, [], .json authErrBody⟩], trace := [], files := [] }
    = (.error (.keyError "access_token"),
       { pending := [], trace := [tokenRequest "a" "b"], files := [] }) :=
  init_auth_error_fails_construction "a" "b" "@default" 401 [] authErrBody [] [] []
    (by decide) (by decide) (Or.inl rfl) rfl

/-! ## C9: credential assertions precede any network call -/

/-- C9: an empty client id or client secret makes construction fail with an
assertion error leaving the world untouched (no request issued); when both
are non-empty the first and only network effect of construction is the
credential-exchange request. -/
theorem init_asserts_nonempty_credentials (cid cs qid : String) (st : WorldState) :
    (cid = "" ∨ cs = "" →
      FlowGraphEngineServer.init cid cs qid st = (.error .assertionError, st))
    ∧ (cid ≠ "" → cs ≠ "" →
      ((FlowGraphEngineServer.init cid cs qid st).2).trace = st.trace ++ [tokenRequest cid cs]) := by
  obtain ⟨pend, trc, fls⟩ := st
  constructor
  · rintro (h | h)
    · simp [FlowGraphEngineServer.init, h, liftE]
    · by_cases hc : cid = "" <;> simp [FlowGraphEngineServer.init, hc, h, liftE]
  · intro h1 h2
    simp only [FlowGraphEngineServer.init, if_neg h1, if_neg h2, generate_oauth_token,
      mbind, httpCall, liftE]
    cases pend with
    | nil => rfl
    | cons r rest =>
        cases hr : generate_oauth_token.mbindE r.jsonBody
            (fun j => j.subscriptStr "access_token") with
        | ok tok => simp [hr, mpure]
        | error e => simp [hr]

/-- C9 witness: a concrete empty-id failure and a concrete issued exchange. -/
theorem init_asserts_nonempty_credentials_witness :
    FlowGraphEngineServer.init "" "b" "@default" st0 = (.error .assertionError, st0)
    ∧ ((FlowGraphEngineServer.init "a" "b" "@default" st0).2).trace
        = st0.trace ++ [tokenRequest "a" "b"] :=
  ⟨(init_asserts_nonempty_credentials "" "b" "@default" st0).1 (Or.inl rfl),
   (init_asserts_nonempty_credentials "a" "b" "@default" st0).2 (by decide) (by decide)⟩

/-! ## C10: operations never modify the stored session -/

/-- One post-construction client operation with its arguments. -/
inductive ClientOp : Type
  | uploadFile (file_bytes : List Nat) (space_id resource_id : String)
  | submitJob (job_json : JValue)
  | listJobs
  | getJobData (job_id : String)
  | waitForJob (job_id : String) (fuel : Nat)
  | downloadFile (space_id resource_id destination_path : String)
  | downloadJobLogs (job_id logdir : String)
  | downloadJobOutputs (job_id outdir : String)

/-- Result values of the client operations, merged into one type. -/
inductive OpResult : Type
  | str : String → OpResult
  | json : JValue → OpResult
  | jsonList : List JValue → OpResult
  | paths : List String → OpResult
  | unit : OpResult

/-- Dispatch one operation on a session.  The middle component is the
session as it stands after the call: none of the Python method bodies
assigns to `self.client_id`, `self.client_secret`, `self.oauth_token` or
`self.queue_id` (only `__init__` does), so each translated body hands the
incoming session back unchanged. -/
def runClientOp (op : ClientOp) (s : FlowGraphEngineServer) (st : WorldState) :
    Except PyErr OpResult × FlowGraphEngineServer × WorldState :=
  match op with
  | .uploadFile b sp rid =>
      ((upload_file s b sp rid st).1.map .str, s, (upload_file s b sp rid st).2)
  | .submitJob j =>
      ((submit_job s j st).1.map .str, s, (submit_job s j st).2)
  | .listJobs =>
      ((list_jobs s st).1.map .jsonList, s, (list_jobs s st).2)
  | .getJobData jid =>
      ((get_job_data s jid st).1.map .json, s, (get_job_data s jid st).2)
  | .waitForJob jid fuel =>
      ((wait_for_job_to_complete s jid fuel st).1.map .json, s,
       (wait_for_job_to_complete s jid fuel st).2)
  | .downloadFile sp rid d =>
      ((download_file s sp rid d st).1.map fun _ => .unit, s, (download_file s sp rid d st).2)
  | .downloadJobLogs jid d =>
      ((download_job_logs s jid d st).1.map .paths, s, (download_job_logs s jid d st).2)
  | .downloadJobOutputs jid d =>
      ((download_job_outputs s jid d st).1.map .paths, s, (download_job_outputs s jid d st).2)

/-- C10: every post-construction operation leaves the stored session — in
particular `oauth_token`, `queue_id`, `client_id` and `client_secret` —
exactly as the constructor set it. -/
theorem client_ops_preserve_session (op : ClientOp) (s : FlowGraphEngineServer)
    (st : WorldState) :
    (runClientOp op s st).2.1 = s
    ∧ (runClientOp op s st).2.1.oauth_token = s.oauth_token
    ∧ (runClientOp op s st).2.1.queue_id = s.queue_id
    ∧ (runClientOp op s st).2.1.client_id = s.client_id
    ∧ (runClientOp op s st).2.1.client_secret = s.client_secret := by
  cases op <;> exact ⟨rfl, rfl, rfl, rfl, rfl⟩

/-! ## C1: the completion poll stops exactly at the first terminal status -/

/-- One poll iteration on a terminal status breaks out of the loop with that
job record. -/
theorem wait_step_terminal (s : FlowGraphEngineServer) (job_id : String) (fuel : Nat)
    (j : JValue) (stj : String) (rest : List HttpResponse) (tr : List HttpRequest)
    (fs : List (String × List Nat))
    (hj : j.subscriptStr "status" = .ok stj) (hterm : stj ∈ terminalStatuses) :
    wait_for_job_to_complete s job_id (fuel + 1)
      { pending := jsonResp j :: rest, trace := tr, files := fs }
    = (.ok j, { pending := rest,
                trace := tr ++ [jobDataRequest s.oauth_token s.queue_id job_id],
                files := fs }) := by
  simp only [wait_for_job_to_complete, get_job_data, mbind, httpCall, liftE,
    HttpResponse.jsonBody, jsonResp, hj]
  simp [hterm, mpure]

/-- One poll iteration on a non-terminal status sleeps and polls again. -/
theorem wait_step_nonterminal (s : FlowGraphEngineServer) (job_id : String) (fuel : Nat)
    (j : JValue) (stj : String) (rest : List HttpResponse) (tr : List HttpRequest)
    (fs : List (String × List Nat))
    (hj : j.subscriptStr "status" = .ok stj) (hnt : stj ∉ terminalStatuses) :
    wait_for_job_to_complete s job_id (fuel + 1)
      { pending := jsonResp j :: rest, trace := tr, files := fs }
    = wait_for_job_to_complete s job_id fuel
      { pending := rest,
        trace := tr ++ [jobDataRequest s.oauth_token s.queue_id job_id],
        files := fs } := by
  simp only [wait_for_job_to_complete, get_job_data, mbind, httpCall, liftE,
    HttpResponse.jsonBody, jsonResp, hj]
  simp [hnt]

/-- C1: for any run of non-terminal job records followed by a terminal one,
`wait_for_job_to_complete` returns exactly at the first terminal record —
it polls once per preceding non-terminal status, returns that terminal
record, and consumes nothing beyond it; and as long as only non-terminal
statuses are reported it keeps polling (after consuming all of them it is
still looping, observed as exhausted fuel). -/
theorem wait_returns_exactly_at_first_terminal (s : FlowGraphEngineServer)
    (job_id : String) (pre : List JValue) (final : JValue) (stf : String)
    (rest : List HttpResponse) (tr : List HttpRequest) (fs : List (String × List Nat))
    (fuel : Nat)
    (hpre : ∀ j ∈ pre, ∃ stj, j.subscriptStr "status" = .ok stj ∧ stj ∉ terminalStatuses)
    (hfin : final.subscriptStr "status" = .ok stf) (hterm : stf ∈ terminalStatuses)
    (hfuel : pre.length < fuel) :
    wait_for_job_to_complete s job_id fuel
      { pending := pre.map jsonResp ++ jsonResp final :: rest, trace := tr, files := fs }
    = (.ok final,
       { pending := rest,
         trace := tr ++ List.replicate (pre.length + 1)
                          (jobDataRequest s.oauth_token s.queue_id job_id),
         files := fs })
    ∧ wait_for_job_to_complete s job_id pre.length
      { pending := pre.map jsonResp, trace := tr, files := fs }
    = (.error .fuelExhausted,
       { pending := [],
         trace := tr ++ List.replicate pre.length
                          (jobDataRequest s.oauth_token s.queue_id job_id),
         files := fs }) := by
  induction pre generalizing fuel tr with
  | nil =>
      obtain ⟨f, rfl⟩ : ∃ f, fuel = f + 1 := ⟨fuel - 1, by omega⟩
      refine ⟨?_, ?_⟩
      · simpa using wait_step_terminal s job_id f final stf rest tr fs hfin hterm
      · simp [wait_for_job_to_complete, liftE]
  | cons j pre ih =>
      obtain ⟨stj, hj, hnt⟩ := hpre j (List.mem_cons_self j pre)
      have hpre' : ∀ x ∈ pre, ∃ stj, x.subscriptStr "status" = .ok stj ∧
          stj ∉ terminalStatuses := fun x hx => hpre x (List.mem_cons_of_mem j hx)
      refine ⟨?_, ?_⟩
      · obtain ⟨f, rfl⟩ : ∃ f, fuel = f + 1 := ⟨fuel - 1, by omega⟩
        rw [List.map_cons, List.cons_append,
          wait_step_nonterminal s job_id f j stj _ tr fs hj hnt,
          (ih (tr ++ [jobDataRequest s.oauth_token s.queue_id job_id]) f hpre'
            (by simp at hfuel; omega)).1]
        simp [List.replicate_succ, List.append_assoc]
      · rw [List.length_cons, List.map_cons,
          wait_step_nonterminal s job_id pre.length j stj _ tr fs hj hnt,
          (ih (tr ++ [jobDataRequest s.oauth_token s.queue_id job_id]) (pre.length + 1)
            hpre' (by omega)).2]
        simp [List.replicate_succ, List.append_assoc]

/-- A job record still running. -/
def runningJob : JValue := .obj [("status", .str "RUNNING")]

/-- A job record that has succeeded. -/
def succeededJob : JValue := .obj [("status", .str "SUCCEEDED")]

/-- C1 witness: one RUNNING poll then SUCCEEDED returns the terminal record
after two polls; a RUNNING-only script leaves the loop still polling. -/
theorem wait_returns_exactly_at_first_terminal_witness :
    wait_for_job_to_complete testServer "j1" 2
      { pending := [jsonResp runningJob, jsonResp succeededJob], trace := [], files := [] }
    = (.ok succeededJob,
       { pending := [],
         trace := List.replicate 2 (jobDataRequest "tok" "@default" "j1"), files := [] })
    ∧ wait_for_job_to_complete testServer "j1" 1
      { pending := [jsonResp runningJob], trace := [], files := [] }
    = (.error .fuelExhausted,
       { pending := [],
         trace := List.replicate 1 (jobDataRequest "tok" "@default" "j1"), files := [] }) :=
  wait_returns_exactly_at_first_terminal testServer "j1" [runningJob] succeededJob
    "SUCCEEDED" [] [] [] 2
    (by
      intro j hj
      simp only [List.mem_singleton] at hj
      subst hj
      exact ⟨"RUNNING", rfl, by decide⟩)
    rfl (by decide) (by decide)

/-! ## C8: the stored token appears verbatim in every service request -/

/-- Pure lifted steps do not touch the world. -/
theorem liftE_state {α : Type} (e : Except PyErr α) (st : WorldState) :
    ((liftE e) st).2 = st := rfl

/-- A lifted step followed by another lifted step does not touch the world. -/
theorem mbind_liftE_state {α β : Type} (e : Except PyErr α) (f : α → Except PyErr β)
    (st : WorldState) :
    ((mbind (liftE e) fun a => liftE (f a)) st).2 = st := by
  cases e <;> rfl

/-- A computation of one HTTP call followed by a world-preserving
continuation appends exactly that request to the trace. -/
theorem mbind_httpCall_trace {α : Type} (req : HttpRequest) (k : HttpResponse → M α)
    (hk : ∀ r st', ((k r) st').2 = st') (st : WorldState) :
    (((mbind (httpCall req) k) st).2).trace = st.trace ++ [req] := by
  obtain ⟨pend, tr, fls⟩ := st
  cases pend with
  | nil => rfl
  | cons r rest =>
      simp only [mbind, httpCall]
      rw [hk r _]

/-- C8: the token stored at construction is the `access_token` of the
exchange response, unmodified; every bearer-authenticated service call
(upload-urls, upload completion, job list, job submission, job status,
log listing, output listing, download-URL resolution) issues exactly one
request whose header list is `Authorization: Bearer <token>` with the
stored token spliced in verbatim. -/
theorem token_used_verbatim_in_service_calls (s : FlowGraphEngineServer)
    (st : WorldState) (cid cs qid tok : String) (more : List HttpResponse)
    (tr : List HttpRequest) (fs : List (String × List Nat))
    (space_id resource_id upload_id etag job_id : String) (job_json : JValue) :
    (cid ≠ "" → cs ≠ "" →
      (FlowGraphEngineServer.init cid cs qid
        { pending := jsonResp (.obj [("access_token", .str tok)]) :: more,
          trace := tr, files := fs }).1
      = .ok { client_id := cid, client_secret := cs, oauth_token := tok, queue_id := qid })
    ∧ ((_get_resource_upload_url s space_id resource_id st).2).trace
        = st.trace ++ [uploadUrlsRequest s.oauth_token space_id resource_id]
    ∧ (uploadUrlsRequest s.oauth_token space_id resource_id).headers
        = [("Authorization", "Bearer " ++ s.oauth_token)]
    ∧ ((_complete_upload s space_id resource_id upload_id etag st).2).trace
        = st.trace ++ [completeUploadRequest s.oauth_token space_id resource_id upload_id etag]
    ∧ (completeUploadRequest s.oauth_token space_id resource_id upload_id etag).headers
        = [("Authorization", "Bearer " ++ s.oauth_token)]
    ∧ ((list_jobs s st).2).trace = st.trace ++ [listJobsRequest s.oauth_token s.queue_id]
    ∧ (listJobsRequest s.oauth_token s.queue_id).headers
        = [("Authorization", "Bearer " ++ s.oauth_token)]
    ∧ ((submit_job s job_json st).2).trace
        = st.trace ++ [submitJobRequest s.oauth_token s.queue_id job_json]
    ∧ (submitJobRequest s.oauth_token s.queue_id job_json).headers
        = [("Authorization", "Bearer " ++ s.oauth_token)]
    ∧ ((get_job_data s job_id st).2).trace
        = st.trace ++ [jobDataRequest s.oauth_token s.queue_id job_id]
    ∧ (jobDataRequest s.oauth_token s.queue_id job_id).headers
        = [("Authorization", "Bearer " ++ s.oauth_token)]
    ∧ ((_get_log_data s job_id st).2).trace
        = st.trace ++ [logDataRequest s.oauth_token s.queue_id job_id]
    ∧ (logDataRequest s.oauth_token s.queue_id job_id).headers
        = [("Authorization", "Bearer " ++ s.oauth_token)]
    ∧ ((_get_output_data s job_id st).2).trace
        = st.trace ++ [outputDataRequest s.oauth_token s.queue_id job_id]
    ∧ (outputDataRequest s.oauth_token s.queue_id job_id).headers
        = [("Authorization", "Bearer " ++ s.oauth_token)]
    ∧ ((_get_download_url_for_resource s space_id resource_id st).2).trace
        = st.trace ++ [downloadUrlRequest s.oauth_token space_id resource_id]
    ∧ (downloadUrlRequest s.oauth_token space_id resource_id).headers
        = [("Authorization", "Bearer " ++ s.oauth_token)] := by
  refine ⟨?_,
    mbind_httpCall_trace _ _ (fun r st' => rfl) st, rfl,
    mbind_httpCall_trace _ _ (fun r st' => mbind_liftE_state _ _ st') st, rfl,
    mbind_httpCall_trace _ _ (fun r st' => mbind_liftE_state _ _ st') st, rfl,
    mbind_httpCall_trace _ _ (fun r st' => mbind_liftE_state _ _ st') st, rfl,
    mbind_httpCall_trace _ _ (fun r st' => rfl) st, rfl,
    mbind_httpCall_trace _ _ (fun r st' => rfl) st, rfl,
    mbind_httpCall_trace _ _ (fun r st' => rfl) st, rfl,
    mbind_httpCall_trace _ _ (fun r st' => rfl) st, rfl⟩
  intro h1 h2
  rw [FlowGraphEngineServer.init, if_neg h1, if_neg h2]
  rfl

/-- C8 witness: a concrete construction storing the exchanged token, and a
concrete status call carrying it verbatim. -/
theorem token_used_verbatim_in_service_calls_witness :
    (FlowGraphEngineServer.init "a" "b" "@default"
        { pending := [jsonResp (.obj [("access_token", .str "tok")])],
          trace := [], files := [] }).1
      = .ok { client_id := "a", client_secret := "b",
              oauth_token := "tok", queue_id := "@default" }
    ∧ ((get_job_data testServer "j" st0).2).trace
      = st0.trace ++ [jobDataRequest "tok" "@default" "j"] :=
  ⟨(token_used_verbatim_in_service_calls testServer st0 "a" "b" "@default" "tok"
      [] [] [] "sp" "r" "u" "e" "j" .null).1 (by decide) (by decide),
   (token_used_verbatim_in_service_calls testServer st0 "a" "b" "@default" "tok"
      [] [] [] "sp" "r" "u" "e" "j" .null).2.2.2.2.2.2.2.2.2.1⟩

/-! ## C4: path lists mirror the record lists in length and order -/

/-- Inversion of a successful `mbind`. -/
theorem mbind_ok {α β : Type} (m : M α) (k : α → M β) (st : WorldState) (b : β)
    (st' : WorldState) (h : (mbind m k) st = (.ok b, st')) :
    ∃ a stm, m st = (.ok a, stm) ∧ (k a) stm = (.ok b, st') := by
  unfold mbind at h
  cases hm : m st with
  | mk res stm =>
      rw [hm] at h
      cases res with
      | ok a => exact ⟨a, stm, rfl, h⟩
      | error e => exact absurd (congrArg Prod.fst h) (by simp)

/-- Inversion of a successful lifted step. -/
theorem liftE_ok {α : Type} {e : Except PyErr α} {st : WorldState} {a : α}
    {st' : WorldState} (h : (liftE e) st = (.ok a, st')) : e = .ok a ∧ st' = st := by
  unfold liftE at h
  exact ⟨congrArg Prod.fst h, (congrArg Prod.snd h).symm⟩

/-- Inversion of `mpure`. -/
theorem mpure_ok {α : Type} {x : α} {st : WorldState} {b : α} {st' : WorldState}
    (h : (mpure x) st = (.ok b, st')) : b = x ∧ st' = st := by
  unfold mpure at h
  have h1 := congrArg Prod.fst h
  have h2 := congrArg Prod.snd h
  simp only [Except.ok.injEq] at h1
  exact ⟨h1.symm, h2.symm⟩


/-- A bound lifted step that succeeds continues with the value. -/
theorem mbind_liftE_ok_apply {α β : Type} (a : α) (k : α → M β) (st : WorldState) :
    (mbind (liftE (.ok a)) k) st = (k a) st := rfl

/-- A bound lifted step that fails propagates the exception. -/
theorem mbind_liftE_error_apply {α β : Type} (e : PyErr) (k : α → M β) (st : WorldState) :
    (mbind (liftE (.error e)) k) st = (.error e, st) := rfl

/-- Every successful run of the log-download loop returns one path per
record, in record order, each of the form `logdir/joblog_<basename>`. -/
theorem download_logs_loop_shape (s : FlowGraphEngineServer) (logdir : String)
    (rs : List JValue) :
    ∀ (st : WorldState) (paths : List String) (st' : WorldState),
    download_logs_loop s logdir rs st = (.ok paths, st') →
    List.Forall₂ (fun r pth => ∃ p, JValue.subscriptStr r "path" = .ok p ∧
      pth = logdir ++ "/joblog_" ++ basename p) rs paths := by
  induction rs with
  | nil =>
      intro st paths st' h
      obtain ⟨rfl, -⟩ := mpure_ok h
      exact List.Forall₂.nil
  | cons r rest ih =>
      intro st paths st' h
      cases hp : r.subscriptStr "path" with
      | error e =>
          simp only [download_logs_loop, hp, mbind_liftE_error_apply] at h
          exact absurd (congrArg Prod.fst h) (by simp)
      | ok p =>
          cases hsp : r.subscriptStr "spaceId" with
          | error e =>
              simp only [download_logs_loop, hp, hsp, mbind_liftE_ok_apply,
                mbind_liftE_error_apply] at h
              exact absurd (congrArg Prod.fst h) (by simp)
          | ok spaceId =>
              cases hrid : r.subscriptStr "resourceId" with
              | error e =>
                  simp only [download_logs_loop, hp, hsp, hrid, mbind_liftE_ok_apply,
                    mbind_liftE_error_apply] at h
                  exact absurd (congrArg Prod.fst h) (by simp)
              | ok resourceId =>
                  simp only [download_logs_loop, hp, hsp, hrid, mbind_liftE_ok_apply] at h
                  obtain ⟨u, st2, hdf, h⟩ := mbind_ok _ _ _ _ _ h
                  obtain ⟨restPaths, st3, hrec, h⟩ := mbind_ok _ _ _ _ _ h
                  obtain ⟨rfl, -⟩ := mpure_ok h
                  exact List.Forall₂.cons ⟨p, hp, rfl⟩ (ih _ _ _ hrec)

/-- Every successful run of the output-download loop returns one path per
record, in record order, each of the form `outdir/<basename>`. -/
theorem download_outputs_loop_shape (s : FlowGraphEngineServer) (outdir : String)
    (rs : List JValue) :
    ∀ (st : WorldState) (paths : List String) (st' : WorldState),
    download_outputs_loop s outdir rs st = (.ok paths, st') →
    List.Forall₂ (fun r pth => ∃ p, JValue.subscriptStr r "path" = .ok p ∧
      pth = outdir ++ "/" ++ basename p) rs paths := by
  induction rs with
  | nil =>
      intro st paths st' h
      obtain ⟨rfl, -⟩ := mpure_ok h
      exact List.Forall₂.nil
  | cons r rest ih =>
      intro st paths st' h
      cases hp : r.subscriptStr "path" with
      | error e =>
          simp only [download_outputs_loop, hp, mbind_liftE_error_apply] at h
          exact absurd (congrArg Prod.fst h) (by simp)
      | ok p =>
          cases hsp : r.subscriptStr "spaceId" with
          | error e =>
              simp only [download_outputs_loop, hp, hsp, mbind_liftE_ok_apply,
                mbind_liftE_error_apply] at h
              exact absurd (congrArg Prod.fst h) (by simp)
          | ok spaceId =>
              cases hrid : r.subscriptStr "resourceId" with
              | error e =>
                  simp only [download_outputs_loop, hp, hsp, hrid, mbind_liftE_ok_apply,
                    mbind_liftE_error_apply] at h
                  exact absurd (congrArg Prod.fst h) (by simp)
              | ok resourceId =>
                  simp only [download_outputs_loop, hp, hsp, hrid, mbind_liftE_ok_apply] at h
                  obtain ⟨u, st2, hdf, h⟩ := mbind_ok _ _ _ _ _ h
                  obtain ⟨restPaths, st3, hrec, h⟩ := mbind_ok _ _ _ _ _ h
                  obtain ⟨rfl, -⟩ := mpure_ok h
                  exact List.Forall₂.cons ⟨p, hp, rfl⟩ (ih _ _ _ hrec)

/-- C4: whenever `download_job_logs` (resp. `download_job_outputs`)
succeeds, the returned path list has the same length as the `results`
record list of the listing response and corresponds to it pointwise in the
same order (the i-th path is derived from the i-th record's path). -/
theorem download_paths_match_records (s : FlowGraphEngineServer)
    (job_id dir : String) (body : JValue) (rs : List JValue)
    (more : List HttpResponse) (tr : List HttpRequest) (fs : List (String × List Nat))
    (paths : List String) (st' : WorldState)
    (hbody : body.subscriptArr "results" = .ok rs) :
    (download_job_logs s job_id dir
        { pending := jsonResp body :: more, trace := tr, files := fs }
        = (.ok paths, st') →
      paths.length = rs.length
      ∧ List.Forall₂ (fun r pth => ∃ p, JValue.subscriptStr r "path" = .ok p ∧
          pth = dir ++ "/joblog_" ++ basename p) rs paths)
    ∧ (download_job_outputs s job_id dir
        { pending := jsonResp body :: more, trace := tr, files := fs }
        = (.ok paths, st') →
      paths.length = rs.length
      ∧ List.Forall₂ (fun r pth => ∃ p, JValue.subscriptStr r "path" = .ok p ∧
          pth = dir ++ "/" ++ basename p) rs paths) := by
  constructor
  · intro h
    have hred : download_job_logs s job_id dir
        { pending := jsonResp body :: more, trace := tr, files := fs }
        = (mbind (liftE (body.subscriptArr "results")) fun results =>
            download_logs_loop s dir results)
          { pending := more,
            trace := tr ++ [logDataRequest s.oauth_token s.queue_id job_id],
            files := fs } := rfl
    rw [hred, hbody, mbind_liftE_ok_apply] at h
    have hall := download_logs_loop_shape s dir rs _ _ _ h
    exact ⟨hall.length_eq.symm, hall⟩
  · intro h
    have hred : download_job_outputs s job_id dir
        { pending := jsonResp body :: more, trace := tr, files := fs }
        = (mbind (liftE (body.subscriptArr "results")) fun results =>
            download_outputs_loop s dir results)
          { pending := more,
            trace := tr ++ [outputDataRequest s.oauth_token s.queue_id job_id],
            files := fs } := rfl
    rw [hred, hbody, mbind_liftE_ok_apply] at h
    have hall := download_outputs_loop_shape s dir rs _ _ _ h
    exact ⟨hall.length_eq.symm, hall⟩

/-- A concrete log record used in witnesses and counterexamples. -/
def logRec1 : JValue :=
  .obj [("path", .str "dir/run.log"), ("spaceId", .str "s1"), ("resourceId", .str "r1")]

/-- C4 witness: a concrete one-record run for logs and for outputs. -/
theorem download_paths_match_records_witness :
    (["logs/joblog_run.log"].length = [logRec1].length
      ∧ List.Forall₂ (fun r pth => ∃ p, JValue.subscriptStr r "path" = .ok p ∧
          pth = "logs" ++ "/joblog_" ++ basename p) [logRec1] ["logs/joblog_run.log"])
    ∧ (["outs/run.log"].length = [logRec1].length
      ∧ List.Forall₂ (fun r pth => ∃ p, JValue.subscriptStr r "path" = .ok p ∧
          pth = "outs" ++ "/" ++ basename p) [logRec1] ["outs/run.log"]) :=
  ⟨(download_paths_match_records testServer "j1" "logs"
      (.obj [("results", .arr [logRec1])]) [logRec1]
      [jsonResp (.obj [("url", .str "u1")]), byteResp 200 [5]] [] []
      ["logs/joblog_run.log"]
      { pending := [],
        trace := [logDataRequest "tok" "@default" "j1",
                  downloadUrlRequest "tok" "s1" "r1", signedGetRequest "u1"],
        files := [("logs/joblog_run.log", [5])] } rfl).1 rfl,
   (download_paths_match_records testServer "j1" "outs"
      (.obj [("results", .arr [logRec1])]) [logRec1]
      [jsonResp (.obj [("url", .str "u1")]), byteResp 200 [5]] [] []
      ["outs/run.log"]
      { pending := [],
        trace := [outputDataRequest "tok" "@default" "j1",
                  downloadUrlRequest "tok" "s1" "r1", signedGetRequest "u1"],
        files := [("outs/run.log", [5])] } rfl).2 rfl⟩

/-! ## C5: log files are written under a joblog_ prefix, not the bare basename -/

/-- C5 counterexample: for a log record with path `dir/run.log` downloaded
into `logs`, the written and returned local path is
`logs/joblog_run.log` — not the record path's bare basename under the
target directory, which would be `logs/run.log`. -/
theorem download_job_logs_prefixes_basename :
    (download_job_logs testServer "j1" "logs"
      { pending := [jsonResp (.obj [("results", .arr [logRec1])]),
                    jsonResp (.obj [("url", .str "u1")]), byteResp 200 [5]],
        trace := [], files := [] }).1 = .ok ["logs/joblog_run.log"]
    ∧ ((download_job_logs testServer "j1" "logs"
      { pending := [jsonResp (.obj [("results", .arr [logRec1])]),
                    jsonResp (.obj [("url", .str "u1")]), byteResp 200 [5]],
        trace := [], files := [] }).2).files = [("logs/joblog_run.log", [5])]
    ∧ "logs/joblog_run.log" ≠ "logs/" ++ basename "dir/run.log" :=
  ⟨rfl, rfl, by decide⟩

/-- One log record together with the scripted server behaviour resolving
and serving its download. -/
structure LogItem where
  path : String
  spaceId : String
  resourceId : String
  url : String
  content : List Nat

/-- The listing record of a `LogItem`. -/
def logRecord (it : LogItem) : JValue :=
  .obj [("path", .str it.path), ("spaceId", .str it.spaceId),
        ("resourceId", .str it.resourceId)]

/-- Scripted responses serving each record: its download-URL resolution
then a 200 byte stream. -/
def downloadScript : List LogItem → List HttpResponse
  | [] => []
  | it :: rest =>
      jsonResp (.obj [("url", .str it.url)]) :: byteResp 200 it.content
        :: downloadScript rest

/-- The requests a full download of the records issues, in order. -/
def downloadTrace (token : String) : List LogItem → List HttpRequest
  | [] => []
  | it :: rest =>
      downloadUrlRequest token it.spaceId it.resourceId :: signedGetRequest it.url
        :: downloadTrace token rest

/-- Running the log loop over well-served records downloads every record
and returns the path `logdir/joblog_<basename>` for each, in order. -/
theorem download_logs_loop_run (s : FlowGraphEngineServer) (logdir : String)
    (items : List LogItem) :
    ∀ (more : List HttpResponse) (tr : List HttpRequest) (fs : List (String × List Nat)),
    download_logs_loop s logdir (items.map logRecord)
      { pending := downloadScript items ++ more, trace := tr, files := fs }
    = (.ok (items.map fun it => logdir ++ "/joblog_" ++ basename it.path),
       { pending := more, trace := tr ++ downloadTrace s.oauth_token items,
         files := fs ++ items.map fun it =>
           (logdir ++ "/joblog_" ++ basename it.path, it.content) }) := by
  induction items with
  | nil =>
      intro more tr fs
      simp [download_logs_loop, downloadScript, downloadTrace, mpure]
  | cons it rest ih =>
      intro more tr fs
      have hstep : download_logs_loop s logdir ((it :: rest).map logRecord)
          { pending := downloadScript (it :: rest) ++ more, trace := tr, files := fs }
          = (mbind (download_logs_loop s logdir (rest.map logRecord)) fun restPaths =>
              mpure ((logdir ++ "/joblog_" ++ basename it.path) :: restPaths))
            { pending := downloadScript rest ++ more,
              trace := (tr ++ [downloadUrlRequest s.oauth_token it.spaceId it.resourceId])
                         ++ [signedGetRequest it.url],
              files := fs ++ [(logdir ++ "/joblog_" ++ basename it.path, it.content)] } := rfl
      rw [hstep]
      simp only [mbind]
      rw [ih more
        ((tr ++ [downloadUrlRequest s.oauth_token it.spaceId it.resourceId])
          ++ [signedGetRequest it.url])
        (fs ++ [(logdir ++ "/joblog_" ++ basename it.path, it.content)])]
      simp [mpure, downloadTrace, List.append_assoc]

/-- C5 amended: `download_job_logs` writes each listed log record into the
target directory under the name `joblog_` followed by the record path's
basename, and returns those written paths in record order. -/
theorem download_job_logs_writes_joblog_paths (s : FlowGraphEngineServer)
    (job_id logdir : String) (items : List LogItem) (more : List HttpResponse)
    (tr : List HttpRequest) (fs : List (String × List Nat)) :
    download_job_logs s job_id logdir
      { pending := jsonResp (.obj [("results", .arr (items.map logRecord))])
                     :: downloadScript items ++ more,
        trace := tr, files := fs }
    = (.ok (items.map fun it => logdir ++ "/joblog_" ++ basename it.path),
       { pending := more,
         trace := tr ++ (logDataRequest s.oauth_token s.queue_id job_id
                          :: downloadTrace s.oauth_token items),
         files := fs ++ items.map fun it =>
           (logdir ++ "/joblog_" ++ basename it.path, it.content) }) := by
  have hstep : download_job_logs s job_id logdir
      { pending := jsonResp (.obj [("results", .arr (items.map logRecord))])
                     :: downloadScript items ++ more,
        trace := tr, files := fs }
      = download_logs_loop s logdir (items.map logRecord)
        { pending := downloadScript items ++ more,
          trace := tr ++ [logDataRequest s.oauth_token s.queue_id job_id],
          files := fs } := rfl
  rw [hstep, download_logs_loop_run]
  simp [List.append_assoc]

/-! ## C6: the three-round-trip upload protocol -/

/-- The upload-urls response body: one signed URL and the upload
transaction's resource id and id. -/
def uploadUrlsBody (u rid0 uid : String) : JValue :=
  .obj [("urls", .arr [.obj [("url", .str u)]]),
        ("upload", .obj [("resourceId", .str rid0), ("id", .str uid)])]

/-- C6: `upload_file` performs exactly the three round trips — the
upload-urls GET, a PUT of the raw file bytes to the returned signed URL,
and a completion POST whose JSON body is
`{resourceId, uploadId, parts: [{partId: 1, etag}]}` with the etag read
from the PUT response header — returning the completion response's `urn`;
and a failing sub-step (a PUT response without an etag header, or an
upload-urls response without the expected fields) aborts the upload with
that step's exception, issuing none of the later requests. -/
theorem upload_file_three_round_trips (s : FlowGraphEngineServer)
    (file_bytes : List Nat) (sp rid u rid0 uid e urn : String)
    (more : List HttpResponse) (tr : List HttpRequest) (fs : List (String × List Nat)) :
    upload_file s file_bytes sp rid
      { pending := jsonResp (uploadUrlsBody u rid0 uid)
                     :: ⟨200, [("etag", e)], .none⟩
                     :: jsonResp (.obj [("urn", .str urn)]) :: more,
        trace := tr, files := fs }
    = (.ok urn,
       { pending := more,
         trace := tr ++ [uploadUrlsRequest s.oauth_token sp rid,
                         signedPutRequest u file_bytes,
                         completeUploadRequest s.oauth_token sp rid0 uid e],
         files := fs })
    ∧ upload_file s file_bytes sp rid
      { pending := jsonResp (uploadUrlsBody u rid0 uid) :: ⟨200, [], .none⟩ :: more,
        trace := tr, files := fs }
    = (.error (.keyError "etag"),
       { pending := more,
         trace := tr ++ [uploadUrlsRequest s.oauth_token sp rid,
                         signedPutRequest u file_bytes],
         files := fs })
    ∧ upload_file s file_bytes sp rid
      { pending := jsonResp (.obj []) :: more, trace := tr, files := fs }
    = (.error (.keyError "urls"),
       { pending := more,
         trace := tr ++ [uploadUrlsRequest s.oauth_token sp rid],
         files := fs }) := by
  refine ⟨?_, ?_, ?_⟩
  · have hrun : upload_file s file_bytes sp rid
        { pending := jsonResp (uploadUrlsBody u rid0 uid)
                       :: ⟨200, [("etag", e)], .none⟩
                       :: jsonResp (.obj [("urn", .str urn)]) :: more,
          trace := tr, files := fs }
        = (.ok urn,
           { pending := more,
             trace := ((tr ++ [uploadUrlsRequest s.oauth_token sp rid])
                        ++ [signedPutRequest u file_bytes])
                        ++ [completeUploadRequest s.oauth_token sp rid0 uid e],
             files := fs }) := rfl
    rw [hrun]
    simp [List.append_assoc]
  · have hrun : upload_file s file_bytes sp rid
        { pending := jsonResp (uploadUrlsBody u rid0 uid) :: ⟨200, [], .none⟩ :: more,
          trace := tr, files := fs }
        = (.error (.keyError "etag"),
           { pending := more,
             trace := (tr ++ [uploadUrlsRequest s.oauth_token sp rid])
                        ++ [signedPutRequest u file_bytes],
             files := fs }) := rfl
    rw [hrun]
    simp [List.append_assoc]
  · rfl
